import Mathlib

/-!
Shallow embedding of the grain-movement CRUD backend (app.py).

The service keeps one table `movimentacoes` in sqlite and exposes four
HTTP handlers: list (GET), create (POST), update (PUT), delete (DELETE).
Each handler validates the parsed JSON body and runs one SQL statement.

Modelling decisions, each traceable to the source:
- A parsed JSON body is a Python dict of scalar values; containers as
  field values are not modelled (sqlite cannot bind them).  `PyVal`
  models the Python scalars produced by JSON parsing: None, bool,
  int/float (as a rational), str.
- `dict.get(k)` returns None both when the key is missing and when the
  stored value is JSON null; `pyGet` therefore collapses an explicit
  null to `none`.
- Python `isinstance(x, (int, float))` accepts booleans, because `bool`
  is a subclass of `int`; `PyVal.isNumeric` mirrors that, and
  `PyVal.toRat` gives True the value 1 and False the value 0.
- sqlite TEXT-affinity columns store the text image of any bound
  scalar; `PyVal.storedText` models that image.  The exact numeral
  rendering sqlite uses is irrelevant to every property proved here
  (only string values are ever compared byte for byte), so a simple
  rendering is used for numbers.
- `AUTOINCREMENT` keeps a monotone counter, so ids are never reused;
  `DB.nextId` models that counter.
- `datetime.now().isoformat()` is passed in as an explicit `now`
  argument to each mutating handler.
-/

namespace GrainControl

/-- Python scalar values as produced by parsing a JSON body. -/
inductive PyVal where
  | vnull
  | vbool (b : Bool)
  | vnum (q : ℚ)
  | vstr (s : String)
deriving DecidableEq, Repr

/-- Python truthiness (`bool(x)`) of a scalar: None and False are falsy,
a number is falsy exactly when it is zero, a string exactly when it is
empty. -/
def PyVal.truthy : PyVal → Bool
  | .vnull => false
  | .vbool b => b
  | .vnum q => q != 0
  | .vstr s => s != ""

/-- The check `isinstance(x, (int, float))` from the source.  In Python,
`bool` is a subclass of `int`, so True and False pass this test. -/
def PyVal.isNumeric : PyVal → Bool
  | .vbool _ => true
  | .vnum _ => true
  | _ => false

/-- Numeric value of a scalar under Python arithmetic comparison
(True counts as 1, False as 0).  Only meaningful when `isNumeric`. -/
def PyVal.toRat : PyVal → ℚ
  | .vbool b => if b then 1 else 0
  | .vnum q => q
  | _ => 0

/-- Text image of a bound scalar in a TEXT-affinity sqlite column.
Strings are stored verbatim; numeric values are converted to their
decimal text (the precise rendering never matters below, only that a
string survives byte for byte). -/
def PyVal.storedText : PyVal → String
  | .vstr s => s
  | .vnum q => toString q
  | .vbool b => if b then "1" else "0"
  | .vnull => ""

/-- A parsed JSON object body, as the dict returned by
`request.get_json()`: an association list with distinct keys. -/
abbrev Body := List (String × PyVal)

/-- `data.get(k)` on the parsed dict: `None` when the key is absent, and
also when the stored value is JSON null (Python cannot tell the two
apart through `get`). -/
def pyGet (b : Body) (k : String) : Option PyVal :=
  match b.lookup k with
  | some .vnull => none
  | some v => some v
  | none => none

/-- Truthiness of a `get` result, matching Python where `None` is falsy. -/
def optTruthy : Option PyVal → Bool
  | none => false
  | some v => v.truthy

/-- One persisted row of the `movimentacoes` table. -/
structure Mov where
  id : Nat
  tipo : PyVal
  data : PyVal
  produto : PyVal
  quantidade : ℚ
  destino : Option PyVal
  timestamp : String
deriving DecidableEq, Repr

/-- The database: the rows of the single table plus the AUTOINCREMENT
counter (the next id to assign; it only ever grows, so ids are never
reused). -/
structure DB where
  rows : List Mov
  nextId : Nat
deriving DecidableEq, Repr

/-- `init_db`: the freshly created empty table; AUTOINCREMENT starts
assigning ids at 1. -/
def init_db : DB := ⟨[], 1⟩

/-- Outcome of one request to a mutating handler. -/
inductive ApiResult where
  | created
  | updated
  | deleted
  | invalidInput
  | missingField
  | invalidQuantity
  | notFound
deriving DecidableEq, Repr

/-- HTTP status code attached to each outcome in the source. -/
def statusOf : ApiResult → Nat
  | .created => 201
  | .updated => 200
  | .deleted => 200
  | .invalidInput => 400
  | .missingField => 400
  | .invalidQuantity => 400
  | .notFound => 404

/-- JSON message attached to each outcome in the source. -/
def messageOf : ApiResult → String
  | .created => "Movimentação adicionada com sucesso!"
  | .updated => "Movimentação atualizada com sucesso!"
  | .deleted => "Movimentação excluída com sucesso!"
  | .invalidInput => "Dados inválidos"
  | .missingField => "Campos obrigatórios faltando"
  | .invalidQuantity => "Quantidade deve ser um número positivo"
  | .notFound => "Movimentação não encontrada"

/-- The required-fields check
`not all([tipo, data_movimentacao, produto, quantidade is not None])`:
truthiness of `tipo`, `data`, `produto`, and mere presence (non-None)
of `quantidade`. -/
def missingRequired (b : Body) : Bool :=
  !(optTruthy (pyGet b "tipo") && optTruthy (pyGet b "data")
      && optTruthy (pyGet b "produto") && (pyGet b "quantidade").isSome)

/-- The quantity check
`not isinstance(quantidade, (int, float)) or quantidade <= 0`.
Only reached when `quantidade` is present. -/
def badQuantidade (b : Body) : Bool :=
  let q := (pyGet b "quantidade").getD .vnull
  !q.isNumeric || decide (q.toRat ≤ 0)

/-- Both validation steps pass and the body is non-empty: the request
reaches the SQL statement. -/
def validBody (b : Body) : Prop :=
  b ≠ [] ∧ missingRequired b = false ∧ badQuantidade b = false

instance (b : Body) : Decidable (validBody b) := by
  unfold validBody; infer_instance

/-- The row inserted by the create handler: the five bound values plus
the fresh id and the server timestamp. -/
def newRow (now : String) (b : Body) (id : Nat) : Mov :=
  { id := id
    tipo := (pyGet b "tipo").getD .vnull
    data := (pyGet b "data").getD .vnull
    produto := (pyGet b "produto").getD .vnull
    quantidade := ((pyGet b "quantidade").getD .vnull).toRat
    destino := pyGet b "destino"
    timestamp := now }

/-- Effect of the UPDATE statement SET list on one matched row: every
column except `id` is overwritten, `timestamp` with the update time. -/
def appliedRow (now : String) (b : Body) (r : Mov) : Mov :=
  { r with
    tipo := (pyGet b "tipo").getD .vnull
    data := (pyGet b "data").getD .vnull
    produto := (pyGet b "produto").getD .vnull
    quantidade := ((pyGet b "quantidade").getD .vnull).toRat
    destino := pyGet b "destino"
    timestamp := now }

/-- POST handler `add_movimentacao`: falsy body, then required fields,
then quantity; on success INSERT a row with the next AUTOINCREMENT id
and return 201. -/
def add_movimentacao (now : String) (body : Body) (db : DB) : ApiResult × DB :=
  if body.isEmpty then (.invalidInput, db)
  else if missingRequired body then (.missingField, db)
  else if badQuantidade body then (.invalidQuantity, db)
  else (.created, { rows := db.rows ++ [newRow now body db.nextId], nextId := db.nextId + 1 })

/-- PUT handler `update_movimentacao`: same validation as create, then
one UPDATE statement on the target id; `rowcount == 0` afterwards means
NOT_FOUND. -/
def update_movimentacao (now : String) (mid : Nat) (body : Body) (db : DB) :
    ApiResult × DB :=
  if body.isEmpty then (.invalidInput, db)
  else if missingRequired body then (.missingField, db)
  else if badQuantidade body then (.invalidQuantity, db)
  else
    let rowcount := (db.rows.filter (fun r => r.id == mid)).length
    let db' : DB :=
      { db with rows := db.rows.map (fun r => if r.id == mid then appliedRow now body r else r) }
    if rowcount == 0 then (.notFound, db') else (.updated, db')

/-- DELETE handler `delete_movimentacao`: one DELETE statement on the
target id; `rowcount == 0` afterwards means NOT_FOUND. -/
def delete_movimentacao (mid : Nat) (db : DB) : ApiResult × DB :=
  let rowcount := (db.rows.filter (fun r => r.id == mid)).length
  let db' : DB := { db with rows := db.rows.filter (fun r => !(r.id == mid)) }
  if rowcount == 0 then (.notFound, db') else (.deleted, db')

/-- Truthiness of an optional query-string argument: absent (None) and
the empty string are both falsy in `if data_inicio:`. -/
def argTruthy : Option String → Bool
  | none => false
  | some s => s != ""

/-- The WHERE clause built by the list handler: `data >= ?` is added
only when `dataInicio` is truthy, `data <= ?` only when `dataFim` is.
TEXT comparison in sqlite is bytewise, which on UTF-8 agrees with the
code-point lexicographic order of Lean strings. -/
def datePred (dataInicio dataFim : Option String) (r : Mov) : Bool :=
  (!argTruthy dataInicio || decide ((dataInicio.getD "") ≤ r.data.storedText))
    && (!argTruthy dataFim || decide (r.data.storedText ≤ (dataFim.getD "")))

/-- Descending timestamp order used by `ORDER BY timestamp DESC`. -/
def tsGe (a b : Mov) : Prop := b.timestamp ≤ a.timestamp

instance : DecidableRel tsGe := fun a b =>
  inferInstanceAs (Decidable (b.timestamp ≤ a.timestamp))

instance : IsTotal Mov tsGe := ⟨fun a b => le_total b.timestamp a.timestamp⟩

instance : IsTrans Mov tsGe :=
  ⟨fun _ _ _ h1 h2 => le_trans h2 h1⟩

/-- GET handler `get_movimentacoes`: SELECT with the optional date range
conditions, ordered by timestamp descending.  It writes nothing, so the
database comes back unchanged. -/
def get_movimentacoes (dataInicio dataFim : Option String) (db : DB) :
    List Mov × DB :=
  (List.insertionSort tsGe (db.rows.filter (datePred dataInicio dataFim)), db)

/-! Concrete fixtures used by witnesses. -/

/-- A sample persisted row. -/
def sampleRow : Mov :=
  { id := 1, tipo := .vstr "entrada", data := .vstr "2024-01-10",
    produto := .vstr "soja", quantidade := 10, destino := none, timestamp := "T1" }

/-- A sample one-row database. -/
def sampleDB : DB := { rows := [sampleRow], nextId := 2 }

/-- A sample fully valid request body. -/
def sampleBody : Body :=
  [("tipo", .vstr "saida"), ("data", .vstr "2024-01-12"),
   ("produto", .vstr "milho"), ("quantidade", .vnum 30)]

/-! Spec-side predicates, phrased after the specification text rather
than the handler code, for stating the validation claims. -/

/-- The field `k` is absent from the body, or present with a
Python-falsy value (empty string, null, False, or zero). -/
def fieldAbsentOrFalsy (b : Body) (k : String) : Prop :=
  match pyGet b k with
  | none => True
  | some v => v.truthy = false

instance (b : Body) (k : String) : Decidable (fieldAbsentOrFalsy b k) := by
  unfold fieldAbsentOrFalsy
  cases pyGet b k <;> infer_instance

/-- Some required field fails its requirement: `kind`, `date` or
`product` absent or falsy, or `quantity` absent (a JSON null counts as
absent through `dict.get`). -/
def specMissingField (b : Body) : Prop :=
  fieldAbsentOrFalsy b "tipo" ∨ fieldAbsentOrFalsy b "data"
    ∨ fieldAbsentOrFalsy b "produto" ∨ pyGet b "quantidade" = none

instance (b : Body) : Decidable (specMissingField b) := by
  unfold specMissingField; infer_instance

/-- The supplied quantity is invalid: neither a number nor a boolean
(Python accepts booleans where it asks for int/float), or its numeric
value is not strictly positive. -/
def specBadQuantity (b : Body) : Prop :=
  match pyGet b "quantidade" with
  | none => True
  | some v => v.isNumeric = false ∨ v.toRat ≤ 0

instance (b : Body) : Decidable (specBadQuantity b) := by
  unfold specBadQuantity
  cases pyGet b "quantidade" <;> infer_instance

/-- The record lies in the requested date range in the sense of the
specification: lower bound honoured whenever given, upper bound
honoured whenever given, both ends inclusive, by string comparison. -/
def specInRange (dataInicio dataFim : Option String) (r : Mov) : Bool :=
  (dataInicio.all fun s => decide (s ≤ r.data.storedText))
    && (dataFim.all fun s => decide (r.data.storedText ≤ s))

/-- The persistent-store invariant claimed by the spec: every row has a
strictly positive quantity and truthy kind, date and product (for the
string values the schema intends, truthy is exactly non-empty, and the
sqlite text image of any truthy scalar is non-empty); ids are pairwise
distinct and all below the AUTOINCREMENT counter, so a fresh id can
never collide with a stored or previously deleted one. -/
def StoreInv (db : DB) : Prop :=
  (∀ r ∈ db.rows, 0 < r.quantidade ∧ r.tipo.truthy = true ∧ r.data.truthy = true
      ∧ r.produto.truthy = true ∧ r.id < db.nextId)
  ∧ (db.rows.map Mov.id).Nodup

instance (db : DB) : Decidable (StoreInv db) := by
  unfold StoreInv; infer_instance

/-- Connection lifecycle events of one request handler. -/
inductive ConnEvent where
  | acquire
  | close
deriving DecidableEq, Repr

/-- Whether the SQL statement sequence of the handler raises. -/
inductive ExecOutcome where
  | ok
  | raises
deriving DecidableEq, Repr

/-- The four request handlers. -/
inductive Handler where
  | hlist
  | hadd
  | hupdate
  | hdelete
deriving DecidableEq, Repr

/-- Connection events along the handler paths that touch the database,
read off the handler bodies.  Every handler opens a fresh connection
and, when the statements complete, closes it.  None of them uses
try/finally or a context manager, so on the path where a statement
raises, the except branch of create/update/delete returns the 500
response — and the list handler propagates the exception — without
reaching conn.close(). -/
def connEvents : Handler → ExecOutcome → List ConnEvent
  | _, .ok => [.acquire, .close]
  | _, .raises => [.acquire]

/-- The handler check `missingRequired` coincides with the spec-side
predicate `specMissingField`. -/
lemma missingRequired_iff (b : Body) :
    missingRequired b = true ↔ specMissingField b := by
  unfold missingRequired specMissingField fieldAbsentOrFalsy optTruthy
  cases pyGet b "tipo" <;> cases pyGet b "data" <;> cases pyGet b "produto" <;>
    cases pyGet b "quantidade" <;> simp [or_assoc]

/-- The handler check `badQuantidade` coincides with the spec-side
predicate `specBadQuantity`. -/
lemma badQuantidade_iff (b : Body) :
    badQuantidade b = true ↔ specBadQuantity b := by
  unfold badQuantidade specBadQuantity
  cases pyGet b "quantidade" <;> simp [PyVal.isNumeric]

lemma isEmpty_false_of_ne_nil {b : Body} (h : b ≠ []) : b.isEmpty = false := by
  cases b with
  | nil => exact absurd rfl h
  | cons a l => rfl

/-! Claim theorems. -/

/-- C10: a create or update whose body parses as JSON but is falsy (the
empty object) is answered with INVALID_INPUT (HTTP 400, message
"Dados inválidos"), not MISSING_FIELD — the falsy-body check fires
first even though every required field is also merely absent (last
conjunct: the missing-field condition does hold for this body). -/
theorem falsy_body_invalid_input (now : String) (mid : Nat) (db : DB) :
    add_movimentacao now [] db = (.invalidInput, db)
  ∧ update_movimentacao now mid [] db = (.invalidInput, db)
  ∧ statusOf .invalidInput = 400
  ∧ messageOf .invalidInput = "Dados inválidos"
  ∧ missingRequired [] = true :=
  ⟨rfl, rfl, rfl, rfl, rfl⟩

/-- C1 counterexample: the claim as stated fails twice on concrete
bodies.  A quantity of JSON `true` is not a number, so the claim
demands INVALID_QUANTITY, but Python `isinstance(True, int)` holds and
the create succeeds with 201.  A kind of JSON `0` is present and not
empty, so the claim demands the quantity check to decide, but Python
truthiness of `0` is false and the create fails with MISSING_FIELD. -/
theorem validation_order_counterexample :
    (add_movimentacao "T"
        [("tipo", .vstr "entrada"), ("data", .vstr "2024-01-10"),
         ("produto", .vstr "soja"), ("quantidade", .vbool true)] init_db).1 = .created
  ∧ (add_movimentacao "T"
        [("tipo", .vnum 0), ("data", .vstr "2024-01-10"),
         ("produto", .vstr "soja"), ("quantidade", .vnum 5)] init_db).1 = .missingField :=
  ⟨rfl, rfl⟩

/-- C1 (amended): for a parseable, non-empty JSON object body, if any of
kind, date, product is absent or Python-falsy (for a string: empty), or
quantity is absent or null, create and update fail with MISSING_FIELD
(HTTP 400) before any other check; otherwise, if quantity is neither a
number nor a boolean (booleans count as numbers, True as 1), or its
numeric value is not strictly greater than zero, they fail with
INVALID_QUANTITY (HTTP 400); validation is applied in exactly this
order. -/
theorem validation_order (now : String) (mid : Nat) (body : Body) (db : DB)
    (hne : body ≠ []) :
    (specMissingField body →
        add_movimentacao now body db = (.missingField, db)
      ∧ update_movimentacao now mid body db = (.missingField, db))
  ∧ (¬ specMissingField body → specBadQuantity body →
        add_movimentacao now body db = (.invalidQuantity, db)
      ∧ update_movimentacao now mid body db = (.invalidQuantity, db))
  ∧ statusOf .missingField = 400 ∧ statusOf .invalidQuantity = 400 := by
  have hne' := isEmpty_false_of_ne_nil hne
  refine ⟨fun hs => ?_, fun hns hq => ?_, rfl, rfl⟩
  · have hm : missingRequired body = true := (missingRequired_iff body).mpr hs
    exact ⟨by simp [add_movimentacao, hne', hm],
           by simp [update_movimentacao, hne', hm]⟩
  · have hm : missingRequired body = false := by
      cases h : missingRequired body
      · rfl
      · exact absurd ((missingRequired_iff body).mp h) hns
    have hb : badQuantidade body = true := (badQuantidade_iff body).mpr hq
    exact ⟨by simp [add_movimentacao, hne', hm, hb],
           by simp [update_movimentacao, hne', hm, hb]⟩

/-- C1 witness: the validation-order theorem applied to a concrete body
that is non-empty but lacks its date field. -/
theorem validation_order_witness :
    (([("tipo", PyVal.vstr "entrada"), ("quantidade", PyVal.vnum 5)] : Body) ≠ [])
  ∧ specMissingField [("tipo", PyVal.vstr "entrada"), ("quantidade", PyVal.vnum 5)]
  ∧ add_movimentacao "T" [("tipo", PyVal.vstr "entrada"), ("quantidade", PyVal.vnum 5)]
      init_db = (.missingField, init_db) :=
  ⟨by decide, by decide,
    ((validation_order "T" 1
        [("tipo", PyVal.vstr "entrada"), ("quantidade", PyVal.vnum 5)] init_db
        (by decide)).1 (by decide)).1⟩

/-- C6: a create or update answered with a validation error
(INVALID_INPUT, MISSING_FIELD or INVALID_QUANTITY) leaves the store
exactly as it was: the error is produced before any write is attempted. -/
theorem validation_failure_no_write (now : String) (mid : Nat) (body : Body) (db : DB) :
    ((add_movimentacao now body db).1 = .invalidInput
      ∨ (add_movimentacao now body db).1 = .missingField
      ∨ (add_movimentacao now body db).1 = .invalidQuantity
      → (add_movimentacao now body db).2 = db)
  ∧ ((update_movimentacao now mid body db).1 = .invalidInput
      ∨ (update_movimentacao now mid body db).1 = .missingField
      ∨ (update_movimentacao now mid body db).1 = .invalidQuantity
      → (update_movimentacao now mid body db).2 = db) := by
  constructor
  · intro h
    cases h1 : body.isEmpty <;> cases h2 : missingRequired body <;>
      cases h3 : badQuantidade body <;> simp [add_movimentacao, h1, h2, h3] at h ⊢
  · intro h
    cases h1 : body.isEmpty <;> cases h2 : missingRequired body <;>
      cases h3 : badQuantidade body <;> simp [update_movimentacao, h1, h2, h3] at h ⊢
    all_goals (split at h <;> simp_all)

/-- C6 witness: a body with a missing date field is answered with
MISSING_FIELD and the store is untouched. -/
theorem validation_failure_no_write_witness :
    (add_movimentacao "T" [("tipo", PyVal.vstr "e")] init_db).2 = init_db :=
  (validation_failure_no_write "T" 1 [("tipo", PyVal.vstr "e")] init_db).1
    (Or.inr (Or.inl (by decide)))

/-! Helper lemmas shared by the remaining claims. -/

lemma db_ext {d1 d2 : DB} (h1 : d1.rows = d2.rows) (h2 : d1.nextId = d2.nextId) :
    d1 = d2 := by
  cases d1; cases d2; cases h1; cases h2; rfl

lemma map_self_of_fixed {l : List Mov} {f : Mov → Mov} (h : ∀ a ∈ l, f a = a) :
    l.map f = l := by
  induction l with
  | nil => rfl
  | cons a t ih => simp [h a (by simp), ih (fun b hb => h b (by simp [hb]))]

/-- On the success path, the update handler rewrites exactly the
matching rows and reports success. -/
lemma update_success_eq (now : String) (mid : Nat) (body : Body) (db : DB)
    (hne' : body.isEmpty = false) (hm : missingRequired body = false)
    (hb : badQuantidade body = false)
    (hfil : (db.rows.filter (fun r => r.id == mid)).length ≠ 0) :
    update_movimentacao now mid body db =
      (.updated,
       { db with
         rows := db.rows.map (fun r => if r.id == mid then appliedRow now body r else r) }) := by
  unfold update_movimentacao
  simp [hne', hm, hb, hfil]

/-- A delete whose id matches no row reports NOT_FOUND and leaves the
database unchanged. -/
lemma delete_no_match (mid : Nat) (db : DB) (h : ∀ r ∈ db.rows, r.id ≠ mid) :
    delete_movimentacao mid db = (.notFound, db) := by
  unfold delete_movimentacao
  have hfil : db.rows.filter (fun r => r.id == mid) = [] :=
    List.filter_eq_nil_iff.mpr (fun r hr => by simpa using h r hr)
  have hkeep : db.rows.filter (fun r => !(r.id == mid)) = db.rows :=
    List.filter_eq_self.mpr (fun r hr => by simpa using h r hr)
  simp [hfil, hkeep]

/-- C2: for a valid body, updating an id no row bears mutates nothing
and returns NOT_FOUND; updating an existing id returns success and
overwrites exactly the rows bearing that id — every field set to the
submitted value, recorded_at to the server time, id unchanged — while
every other row and the id counter stay as they were. -/
theorem update_frame (now : String) (mid : Nat) (body : Body) (db : DB)
    (hv : validBody body) :
    ((∀ r ∈ db.rows, r.id ≠ mid) →
        update_movimentacao now mid body db = (.notFound, db))
  ∧ ((∃ r ∈ db.rows, r.id = mid) →
        (update_movimentacao now mid body db).1 = .updated
      ∧ ((update_movimentacao now mid body db).2).nextId = db.nextId
      ∧ ((update_movimentacao now mid body db).2).rows.length = db.rows.length
      ∧ (∀ (i : Nat) (r : Mov), db.rows[i]? = some r → r.id ≠ mid →
            ((update_movimentacao now mid body db).2).rows[i]? = some r)
      ∧ (∀ (i : Nat) (r : Mov), db.rows[i]? = some r → r.id = mid →
            ((update_movimentacao now mid body db).2).rows[i]? =
              some { id := r.id
                     tipo := (pyGet body "tipo").getD .vnull
                     data := (pyGet body "data").getD .vnull
                     produto := (pyGet body "produto").getD .vnull
                     quantidade := ((pyGet body "quantidade").getD .vnull).toRat
                     destino := pyGet body "destino"
                     timestamp := now })) := by
  obtain ⟨hne, hm, hb⟩ := hv
  have hne' := isEmpty_false_of_ne_nil hne
  constructor
  · intro habs
    have hfil : db.rows.filter (fun r => r.id == mid) = [] :=
      List.filter_eq_nil_iff.mpr (fun r hr => by simpa using habs r hr)
    have hmap : db.rows.map (fun r => if r.id == mid then appliedRow now body r else r)
        = db.rows :=
      map_self_of_fixed (fun r hr => by simp [habs r hr])
    have hmap' : db.rows.map (fun r => if r.id = mid then appliedRow now body r else r)
        = db.rows :=
      map_self_of_fixed (fun r hr => by simp [habs r hr])
    unfold update_movimentacao
    simp [hne', hm, hb, hfil, hmap, hmap']
  · intro hex
    have hfil : (db.rows.filter (fun r => r.id == mid)).length ≠ 0 := by
      obtain ⟨r, hr, hid⟩ := hex
      have hmem : r ∈ db.rows.filter (fun r => r.id == mid) :=
        List.mem_filter.mpr ⟨hr, by simp [hid]⟩
      intro h0
      rw [List.length_eq_zero] at h0
      simp [h0] at hmem
    rw [update_success_eq now mid body db hne' hm hb hfil]
    refine ⟨rfl, rfl, by simp, fun i r hi hr => ?_, fun i r hi hr => ?_⟩
    · show (db.rows.map (fun r => if r.id == mid then appliedRow now body r else r))[i]?
        = some r
      rw [List.getElem?_map _ db.rows i, hi]
      simp [hr]
    · show (db.rows.map (fun r => if r.id == mid then appliedRow now body r else r))[i]?
        = some ({ id := r.id
                  tipo := (pyGet body "tipo").getD .vnull
                  data := (pyGet body "data").getD .vnull
                  produto := (pyGet body "produto").getD .vnull
                  quantidade := ((pyGet body "quantidade").getD .vnull).toRat
                  destino := pyGet body "destino"
                  timestamp := now } : Mov)
      rw [List.getElem?_map _ db.rows i, hi]
      simp [hr, appliedRow]

/-- C2 witness: a valid body and a one-row store; updating the missing
id 5 returns NOT_FOUND and the store is untouched. -/
theorem update_frame_witness :
    validBody sampleBody
  ∧ update_movimentacao "T2" 5 sampleBody sampleDB = (.notFound, sampleDB) :=
  ⟨by decide, (update_frame "T2" 5 sampleBody sampleDB (by decide)).1 (by decide)⟩

/-- C7: a create that passes validation appends exactly one new record
holding the submitted values — each present field stored as submitted,
quantity by its numeric value, destination None when absent — stamped
with the server time and the fresh AUTOINCREMENT id (which no existing
row bears while all stored ids are below the counter), and answers 201
with the success message. -/
theorem create_success (now : String) (body : Body) (db : DB)
    (hv : validBody body)
    (hid : ∀ r ∈ db.rows, r.id < db.nextId) :
    (add_movimentacao now body db).1 = .created
  ∧ statusOf .created = 201
  ∧ messageOf .created = "Movimentação adicionada com sucesso!"
  ∧ ((add_movimentacao now body db).2).rows = db.rows ++ [newRow now body db.nextId]
  ∧ ((add_movimentacao now body db).2).nextId = db.nextId + 1
  ∧ (newRow now body db.nextId).timestamp = now
  ∧ (newRow now body db.nextId).id = db.nextId
  ∧ (∀ r ∈ db.rows, r.id ≠ (newRow now body db.nextId).id)
  ∧ (∀ v, pyGet body "tipo" = some v → (newRow now body db.nextId).tipo = v)
  ∧ (∀ v, pyGet body "data" = some v → (newRow now body db.nextId).data = v)
  ∧ (∀ v, pyGet body "produto" = some v → (newRow now body db.nextId).produto = v)
  ∧ (∀ v, pyGet body "quantidade" = some v →
        (newRow now body db.nextId).quantidade = v.toRat)
  ∧ (newRow now body db.nextId).destino = pyGet body "destino" := by
  obtain ⟨hne, hm, hb⟩ := hv
  have hne' := isEmpty_false_of_ne_nil hne
  have hadd : add_movimentacao now body db =
      (.created, { rows := db.rows ++ [newRow now body db.nextId], nextId := db.nextId + 1 }) := by
    unfold add_movimentacao
    simp [hne', hm, hb]
  refine ⟨by rw [hadd], rfl, rfl, by rw [hadd], by rw [hadd], rfl, rfl,
    fun r hr => Nat.ne_of_lt (hid r hr), fun v hv' => ?_, fun v hv' => ?_,
    fun v hv' => ?_, fun v hv' => ?_, rfl⟩
  all_goals simp [newRow, hv']

/-- C7 witness: a valid create on the sample database. -/
theorem create_success_witness :
    validBody sampleBody
  ∧ (∀ r ∈ sampleDB.rows, r.id < sampleDB.nextId)
  ∧ (add_movimentacao "T3" sampleBody sampleDB).1 = .created :=
  ⟨by decide, by decide,
    (create_success "T3" sampleBody sampleDB (by decide) (by decide)).1⟩

/-- C8: deleting an id borne by some row succeeds and permanently
removes every row with that id while the id counter stays put; deleting
the same id a second time returns NOT_FOUND (HTTP 404) and leaves the
store exactly as the first delete left it; deleting an id no row bears
returns NOT_FOUND and modifies nothing. -/
theorem delete_twice (mid : Nat) (db : DB) :
    ((∃ r ∈ db.rows, r.id = mid) →
        (delete_movimentacao mid db).1 = .deleted
      ∧ (∀ r ∈ (delete_movimentacao mid db).2.rows, r.id ≠ mid)
      ∧ (∀ r ∈ (delete_movimentacao mid db).2.rows, r ∈ db.rows)
      ∧ (delete_movimentacao mid db).2.nextId = db.nextId
      ∧ delete_movimentacao mid (delete_movimentacao mid db).2 =
          (.notFound, (delete_movimentacao mid db).2))
  ∧ ((∀ r ∈ db.rows, r.id ≠ mid) →
        delete_movimentacao mid db = (.notFound, db))
  ∧ statusOf .notFound = 404 := by
  refine ⟨fun hex => ?_, fun habs => delete_no_match mid db habs, rfl⟩
  have hfil : (db.rows.filter (fun r => r.id == mid)).length ≠ 0 := by
    obtain ⟨r, hr, hid⟩ := hex
    have hmem : r ∈ db.rows.filter (fun r => r.id == mid) :=
      List.mem_filter.mpr ⟨hr, by simp [hid]⟩
    intro h0
    rw [List.length_eq_zero] at h0
    simp [h0] at hmem
  have hdel : delete_movimentacao mid db =
      (.deleted, { db with rows := db.rows.filter (fun r => !(r.id == mid)) }) := by
    unfold delete_movimentacao
    simp [hfil]
  have hgone : ∀ r ∈ (delete_movimentacao mid db).2.rows, r.id ≠ mid := by
    rw [hdel]
    intro r hr
    have := (List.mem_filter.mp hr).2
    simpa using this
  refine ⟨by rw [hdel], hgone, ?_, by rw [hdel], ?_⟩
  · rw [hdel]
    intro r hr
    exact (List.mem_filter.mp hr).1
  · exact delete_no_match mid _ hgone

/-- C8 witness: the sample row with id 1 is deleted, a second delete of
id 1 answers NOT_FOUND on the now-empty store. -/
theorem delete_twice_witness :
    (∃ r ∈ sampleDB.rows, r.id = 1)
  ∧ (delete_movimentacao 1 sampleDB).1 = .deleted
  ∧ delete_movimentacao 1 (delete_movimentacao 1 sampleDB).2 =
      (.notFound, (delete_movimentacao 1 sampleDB).2) :=
  ⟨by decide,
   ((delete_twice 1 sampleDB).1 (by decide)).1,
   ((delete_twice 1 sampleDB).1 (by decide)).2.2.2.2⟩

/-! Lemmas feeding the invariant claim. -/

lemma truthy_fields_of_not_missing {b : Body} (hm : missingRequired b = false) :
    optTruthy (pyGet b "tipo") = true ∧ optTruthy (pyGet b "data") = true
      ∧ optTruthy (pyGet b "produto") = true ∧ (pyGet b "quantidade").isSome = true := by
  unfold missingRequired at hm
  simpa [and_assoc] using hm

lemma optTruthy_getD {o : Option PyVal} (h : optTruthy o = true) :
    (o.getD .vnull).truthy = true := by
  cases o with
  | none => exact absurd h (by simp [optTruthy])
  | some v => exact h

lemma quant_pos_of_not_bad {b : Body} (hb : badQuantidade b = false) :
    0 < ((pyGet b "quantidade").getD .vnull).toRat := by
  unfold badQuantidade at hb
  rw [Bool.or_eq_false_iff] at hb
  have := hb.2
  simp only [decide_eq_false_iff_not, not_le] at this
  exact this

lemma nodup_ids_concat {l : List Mov} {n : Nat} (hnd : (l.map Mov.id).Nodup)
    (hlt : ∀ r ∈ l, r.id < n) {r' : Mov} (hr' : r'.id = n) :
    ((l ++ [r']).map Mov.id).Nodup := by
  rw [List.map_append, List.nodup_append]
  refine ⟨hnd, by simp, fun a ha => ?_⟩
  obtain ⟨r, hr, rfl⟩ := List.mem_map.mp ha
  simp [hr', Nat.ne_of_lt (hlt r hr)]

/-- The create handler either rejects and leaves the database alone, or
appends exactly the new row and bumps the id counter. -/
lemma add_snd (now : String) (body : Body) (db : DB) :
    (add_movimentacao now body db).2 = db
  ∨ ((add_movimentacao now body db).2 =
        { rows := db.rows ++ [newRow now body db.nextId], nextId := db.nextId + 1 }
      ∧ missingRequired body = false ∧ badQuantidade body = false) := by
  by_cases h1 : body.isEmpty = true
  · left; simp [add_movimentacao, h1]
  · by_cases h2 : missingRequired body = true
    · left; simp [add_movimentacao, h1, h2]
    · by_cases h3 : badQuantidade body = true
      · left; simp [add_movimentacao, h1, h2, h3]
      · right
        refine ⟨?_, by simpa using h2, by simpa using h3⟩
        simp [add_movimentacao, h1, h2, h3]

/-- The update handler either rejects (or misses) and leaves the rows
alone, or rewrites the rows through the per-row SET function. -/
lemma update_snd (now : String) (mid : Nat) (body : Body) (db : DB) :
    (update_movimentacao now mid body db).2 = db
  ∨ ((update_movimentacao now mid body db).2 =
        { db with rows := db.rows.map (fun r => if r.id == mid then appliedRow now body r else r) }
      ∧ missingRequired body = false ∧ badQuantidade body = false) := by
  by_cases h1 : body.isEmpty = true
  · left; simp [update_movimentacao, h1]
  · by_cases h2 : missingRequired body = true
    · left; simp [update_movimentacao, h1, h2]
    · by_cases h3 : badQuantidade body = true
      · left; simp [update_movimentacao, h1, h2, h3]
      · right
        refine ⟨?_, by simpa using h2, by simpa using h3⟩
        have e1 : body.isEmpty = false := by simpa using h1
        have e2 : missingRequired body = false := by simpa using h2
        have e3 : badQuantidade body = false := by simpa using h3
        unfold update_movimentacao
        simp only [e1, e2, e3, Bool.false_eq_true, if_false]
        split <;> rfl

/-- The delete handler always ends with the matching rows filtered out
and the id counter untouched. -/
lemma delete_snd (mid : Nat) (db : DB) :
    (delete_movimentacao mid db).2 =
      { db with rows := db.rows.filter (fun r => !(r.id == mid)) } := by
  unfold delete_movimentacao
  cases hc : ((db.rows.filter (fun r => r.id == mid)).length == 0) <;> simp [hc]

lemma appliedRow_id (now : String) (body : Body) (r : Mov) :
    (appliedRow now body r).id = r.id := rfl

/-- C4: every reachable store satisfies the invariant — positive
quantity, truthy kind, date and product, pairwise-distinct ids below
the AUTOINCREMENT counter — because all four operations preserve it;
moreover create only moves the id counter up, update leaves the stored
id sequence untouched (ids are immutable), and delete leaves the
counter untouched (freed ids are never reassigned). -/
theorem operations_preserve_invariant (now : String) (mid : Nat) (body : Body)
    (d1 d2 : Option String) (db : DB) (h : StoreInv db) :
    StoreInv (get_movimentacoes d1 d2 db).2
  ∧ StoreInv (add_movimentacao now body db).2
  ∧ StoreInv (update_movimentacao now mid body db).2
  ∧ StoreInv (delete_movimentacao mid db).2
  ∧ db.nextId ≤ (add_movimentacao now body db).2.nextId
  ∧ (update_movimentacao now mid body db).2.rows.map Mov.id = db.rows.map Mov.id
  ∧ (delete_movimentacao mid db).2.nextId = db.nextId := by
  obtain ⟨hrow, hnd⟩ := h
  have hup_ids : (update_movimentacao now mid body db).2.rows.map Mov.id
      = db.rows.map Mov.id := by
    rcases update_snd now mid body db with he | ⟨he, _, _⟩
    · rw [he]
    · rw [he, List.map_map]
      exact List.map_congr_left (fun r _ => by
        by_cases hid : r.id = mid <;> simp [Function.comp, hid, appliedRow_id])
  refine ⟨⟨hrow, hnd⟩, ?_, ?_, ?_, ?_, hup_ids, ?_⟩
  · rcases add_snd now body db with he | ⟨he, h2, h3⟩
    · rw [he]; exact ⟨hrow, hnd⟩
    · rw [he]
      obtain ⟨ht, hd, hp, _⟩ := truthy_fields_of_not_missing h2
      constructor
      · intro r hr
        rcases List.mem_append.mp hr with hold | hnew
        · obtain ⟨q, t, d, p, hi⟩ := hrow r hold
          exact ⟨q, t, d, p, Nat.lt_succ_of_lt hi⟩
        · rw [List.mem_singleton.mp hnew]
          exact ⟨quant_pos_of_not_bad h3, optTruthy_getD ht, optTruthy_getD hd,
            optTruthy_getD hp, Nat.lt_succ_self _⟩
      · exact nodup_ids_concat hnd (fun r hr => (hrow r hr).2.2.2.2) rfl
  · rcases update_snd now mid body db with he | ⟨he, h2, h3⟩
    · rw [he]; exact ⟨hrow, hnd⟩
    · constructor
      · rw [he]
        intro r hr
        obtain ⟨r0, hr0, rfl⟩ := List.mem_map.mp hr
        obtain ⟨ht, hd, hp, _⟩ := truthy_fields_of_not_missing h2
        by_cases hid : r0.id = mid
        · obtain ⟨q, t, d, p, hi⟩ := hrow r0 hr0
          have hc : (r0.id == mid) = true := by simpa using hid
          simp only [hc]
          rw [if_pos trivial]
          refine ⟨quant_pos_of_not_bad h3, optTruthy_getD ht, optTruthy_getD hd,
            optTruthy_getD hp, ?_⟩
          show (appliedRow now body r0).id < db.nextId
          rw [appliedRow_id]
          exact hi
        · have : (r0.id == mid) = false := by simpa using hid
          simp only [this, Bool.false_eq_true, if_false]
          exact hrow r0 hr0
      · rw [hup_ids]
        exact hnd
  · rw [delete_snd mid db]
    refine ⟨fun r hr => hrow r (List.mem_filter.mp hr).1, ?_⟩
    exact hnd.sublist ((db.rows.filter_sublist).map Mov.id)
  · rcases add_snd now body db with he | ⟨he, _, _⟩
    · rw [he]
    · rw [he]; exact Nat.le_succ _
  · rw [delete_snd mid db]

/-- C4 witness: the invariant holds of the sample database and is kept
by a create on it. -/
theorem operations_preserve_invariant_witness :
    StoreInv sampleDB ∧ StoreInv (add_movimentacao "T3" sampleBody sampleDB).2 :=
  ⟨by decide,
    (operations_preserve_invariant "T3" 1 sampleBody none none sampleDB (by decide)).2.1⟩

/-- C5 counterexample: on the path where the INSERT raises, the create
handler has acquired a connection and exits without closing it — the
source has no try/finally and no with-statement, so the except branch
returns the 500 response with the connection still open. -/
theorem connection_release_counterexample :
    ConnEvent.acquire ∈ connEvents .hadd .raises
  ∧ ConnEvent.close ∉ connEvents .hadd .raises := by
  exact ⟨by decide, by decide⟩

/-- C5 (amended): every handler closes the connection it acquired on
the path where its SQL statements complete; on the path where a
statement raises, each of the four handlers exits — create, update and
delete through the except branch with a 500 response, list by
propagating the exception — without closing the connection. -/
theorem connection_release (h : Handler) :
    ConnEvent.acquire ∈ connEvents h .ok
  ∧ ConnEvent.close ∈ connEvents h .ok
  ∧ ConnEvent.acquire ∈ connEvents h .raises
  ∧ ConnEvent.close ∉ connEvents h .raises := by
  cases h <;> exact ⟨by decide, by decide, by decide, by decide⟩

/-! Lemmas feeding the list claims. -/

lemma empty_string_le (s : String) : "" ≤ s := by
  rw [String.le_iff_toList_le]
  exact List.nil_le

lemma datePred_eq_spec (d1 d2 : Option String) (h2 : d2 ≠ some "") (r : Mov) :
    datePred d1 d2 r = specInRange d1 d2 r := by
  have l1 : (!argTruthy d1 || decide ((d1.getD "") ≤ r.data.storedText))
      = (d1.all fun s => decide (s ≤ r.data.storedText)) := by
    cases d1 with
    | none => rfl
    | some s =>
      by_cases h : s = ""
      · subst h
        simp [argTruthy, empty_string_le]
      · simp [argTruthy, h]
  have l2 : (!argTruthy d2 || decide (r.data.storedText ≤ (d2.getD "")))
      = (d2.all fun s => decide (r.data.storedText ≤ s)) := by
    cases d2 with
    | none => rfl
    | some s =>
      have h : s ≠ "" := fun hs => h2 (by rw [hs])
      simp [argTruthy, h]
  unfold datePred specInRange
  rw [l1, l2]

/-- C3 counterexample: with dataFim given as the empty string, the claim
as stated allows only records whose date is ≤ "" in the result, but the
handler treats a falsy bound as absent: it returns the sample row even
though its date "2024-01-10" is not ≤ "". -/
theorem list_range_counterexample :
    (get_movimentacoes none (some "") sampleDB).1 = [sampleRow]
  ∧ ¬ (sampleRow.data.storedText ≤ "") := by
  constructor
  · rfl
  · show ¬ (("2024-01-10" : String) ≤ "")
    rw [String.le_iff_toList_le]
    intro h
    exact (List.nil_lt_cons _ _).not_le h

/-- C3 (amended): for every store state and optional bounds whose upper
bound is not the empty string (the handler treats a falsy bound as
absent; an empty lower bound is vacuous either way), the list operation
returns exactly the records whose stored date text lies between the
given bounds (both ends inclusive, lexicographic string comparison),
sorted by recorded_at descending, and modifies nothing in the store. -/
theorem list_range (d1 d2 : Option String) (db : DB) (h2 : d2 ≠ some "") :
    (get_movimentacoes d1 d2 db).2 = db
  ∧ List.Perm (get_movimentacoes d1 d2 db).1 (db.rows.filter (specInRange d1 d2))
  ∧ List.Sorted tsGe (get_movimentacoes d1 d2 db).1 := by
  refine ⟨rfl, ?_, ?_⟩
  · show List.Perm (List.insertionSort tsGe (db.rows.filter (datePred d1 d2)))
      (db.rows.filter (specInRange d1 d2))
    rw [List.filter_congr (fun r _ => datePred_eq_spec d1 d2 h2 r)]
    exact List.perm_insertionSort tsGe _
  · exact List.sorted_insertionSort tsGe _

/-- C3 witness: the amended list theorem at a concrete non-empty upper
bound on the sample database. -/
theorem list_range_witness :
    ((some "2024-01-31" : Option String) ≠ some "")
  ∧ (get_movimentacoes none (some "2024-01-31") sampleDB).2 = sampleDB :=
  ⟨by decide, (list_range none (some "2024-01-31") sampleDB (by decide)).1⟩

/-- Success shape of the create handler. -/
lemma add_success_eq (now : String) (body : Body) (db : DB)
    (hne' : body.isEmpty = false) (hm : missingRequired body = false)
    (hb : badQuantidade body = false) :
    add_movimentacao now body db =
      (.created, { rows := db.rows ++ [newRow now body db.nextId],
                   nextId := db.nextId + 1 }) := by
  unfold add_movimentacao
  simp [hne', hm, hb]

/-- C9: creating a valid movement and immediately listing with no date
filter yields a result containing a record whose kind, date, product
and destination are the submitted strings byte for byte and whose
quantity is the submitted number value for value. -/
theorem create_list_roundtrip (now : String) (db : DB) (body : Body)
    (kt dt pt : String) (q : ℚ) (dest : Option PyVal)
    (h1 : pyGet body "tipo" = some (.vstr kt))
    (h2 : pyGet body "data" = some (.vstr dt))
    (h3 : pyGet body "produto" = some (.vstr pt))
    (h4 : pyGet body "quantidade" = some (.vnum q))
    (h5 : pyGet body "destino" = dest)
    (hv : validBody body) :
    ∃ r ∈ (get_movimentacoes none none (add_movimentacao now body db).2).1,
      r.tipo = .vstr kt ∧ r.data = .vstr dt ∧ r.produto = .vstr pt
        ∧ r.quantidade = q ∧ r.destino = dest := by
  obtain ⟨hne, hm, hb⟩ := hv
  have hadd := add_success_eq now body db (isEmpty_false_of_ne_nil hne) hm hb
  refine ⟨newRow now body db.nextId, ?_, ?_⟩
  · show newRow now body db.nextId ∈ List.insertionSort tsGe
      ((add_movimentacao now body db).2.rows.filter (datePred none none))
    rw [(List.perm_insertionSort tsGe _).mem_iff]
    have hfil : (add_movimentacao now body db).2.rows.filter (datePred none none)
        = (add_movimentacao now body db).2.rows :=
      List.filter_eq_self.mpr (fun r _ => by simp [datePred, argTruthy])
    rw [hfil, hadd]
    simp
  · exact ⟨by simp [newRow, h1], by simp [newRow, h2], by simp [newRow, h3],
      by simp [newRow, h4, PyVal.toRat], by simp [newRow, h5]⟩

/-- C9 witness: the round trip at the sample body on the sample
database. -/
theorem create_list_roundtrip_witness :
    validBody sampleBody
  ∧ ∃ r ∈ (get_movimentacoes none none (add_movimentacao "T3" sampleBody sampleDB).2).1,
      r.tipo = .vstr "saida" ∧ r.data = .vstr "2024-01-12" ∧ r.produto = .vstr "milho"
        ∧ r.quantidade = 30 ∧ r.destino = none :=
  ⟨by decide,
    create_list_roundtrip "T3" sampleDB sampleBody "saida" "2024-01-12" "milho" 30 none
      rfl rfl rfl rfl rfl (by decide)⟩

end GrainControl
